import Mathlib

/-!
Verification development for the Elive desktop clock gadget
(single C source file src/main.c).

The definitions below are a shallow embedding of the relevant parts of
the program:

* Unix timestamps are modelled as natural numbers; the fields that
  gmtime_r extracts from a time_t (hour, minute, second of the UTC day)
  are the usual Euclidean divisions, which is exactly what gmtime
  computes for the time-of-day fields of a nonnegative time_t.
* The C expressions (int)(w * 0.3) and (int)(w * 0.7) multiply an
  integer by an IEEE-754 double constant and truncate.  They are
  embedded exactly: the double nearest 0.3 is M03 / 2^54 and the double
  nearest 0.7 is M07 / 2^53; the product is rounded to the nearest
  double (ties to even) with integer mantissa arithmetic and then
  truncated.  This agrees with the hardware computation for every
  window size the program can encounter.
* The Swatch beats computation divides an exact small integer by the
  double nearest 86.4 (M864 / 2^45) in double precision and prints the
  quotient with a correctly rounding printf.  Both roundings, of the
  quotient to a 53-bit mantissa and of the resulting exact binary
  value to two decimal places, are to nearest with ties to even and
  are performed with integer arithmetic on mantissas, so the produced
  string is exactly the one snprintf prints for every timestamp.
* The mutable App_Data structure of the program is a Lean structure;
  every callback becomes a pure state-transformer.  The external world
  the callbacks touch (the eet settings file, the X window position) is
  carried inside the same structure, together with a counter of
  completed configuration writes, so that frame conditions about
  persistence are expressible.
-/

namespace EliveClock

/-- Clock display mode constant CLOCK_MODE_LOCAL from main.c. -/
def CLOCK_MODE_LOCAL : Int := 0

/-- Clock display mode constant CLOCK_MODE_UTC from main.c. -/
def CLOCK_MODE_UTC : Int := 1

/-- Clock display mode constant CLOCK_MODE_SWATCH from main.c. -/
def CLOCK_MODE_SWATCH : Int := 2

/-! ## UTC time-of-day fields of a timestamp

gmtime_r applied to a nonnegative time_t yields tm_hour, tm_min and
tm_sec by Euclidean division of the seconds-of-day. -/

/-- tm_hour of gmtime_r for the timestamp t. -/
def gm_hour (t : Nat) : Nat := t % 86400 / 3600

/-- tm_min of gmtime_r for the timestamp t. -/
def gm_min (t : Nat) : Nat := t % 3600 / 60

/-- tm_sec of gmtime_r for the timestamp t. -/
def gm_sec (t : Nat) : Nat := t % 60

/-! ## Swatch Internet Time (_get_swatch_time) -/

/-- BMT hour from _get_swatch_time: UTC hour plus one, with the
day-wrap branch subtracting 24 when the sum reaches 24. -/
def hour_bmt (t : Nat) : Nat :=
  let h := gm_hour t + 1
  if h ≥ 24 then h - 24 else h

/-- total_seconds_bmt from _get_swatch_time. -/
def total_seconds_bmt (t : Nat) : Nat :=
  hour_bmt t * 3600 + gm_min t * 60 + gm_sec t

/-- The exact rational value of the division performed by
_get_swatch_time: total seconds since BMT midnight divided by 86.4.
The program computes this quotient in double precision; the double
actually produced is beats_fp below. -/
def beats (t : Nat) : ℚ := (total_seconds_bmt t : ℚ) / (864 / 10)

/-- Mantissa of the IEEE-754 double nearest 86.4 (the double is
M864 / 2^45). -/
def M864 : Nat := 3039929748475085

/-- Round num / den to the nearest integer with ties to even: the
rounding IEEE-754 arithmetic applies to a mantissa and printf applies
to a printed decimal. -/
def roundHalfEvenDiv (num den : Nat) : Nat :=
  let q := num / den
  let r := num % den
  if 2 * r > den ∨ (2 * r = den ∧ q % 2 = 1) then q + 1 else q

/-- Number of doublings that bring n / d up to the 2^52 mantissa
range (with a fuel bound far above any value the program can
produce). -/
def scaleBitsAux : Nat → Nat → Nat → Nat
  | 0, _, _ => 0
  | fuel + 1, n, d => if 2 ^ 52 ≤ n / d then 0 else scaleBitsAux fuel (n * 2) d + 1

/-- The binary scale of the double quotient n / (M864 / 2^45): the s
with n * 2^45 * 2^s / M864 in the 53-bit mantissa range. -/
def beats_scale (n : Nat) : Nat := scaleBitsAux 128 (n * 2 ^ 45) M864

/-- The mantissa of the correctly rounded double quotient
n / (M864 / 2^45), so that the double equals
beats_mantissa n / 2^(beats_scale n) exactly.  The int-to-double
conversion of n is exact (n is far below 2^53) and IEEE division
rounds the exact quotient to nearest with ties to even. -/
def beats_mantissa (n : Nat) : Nat :=
  roundHalfEvenDiv (n * 2 ^ 45 * 2 ^ beats_scale n) M864

/-- The exact rational value of the double the program computes for
beats: the correctly rounded quotient total_seconds_bmt / 86.4 in
double precision. -/
def beats_fp (t : Nat) : ℚ :=
  (beats_mantissa (total_seconds_bmt t) : ℚ) / 2 ^ beats_scale (total_seconds_bmt t)

/-- The beats value in hundredths as printed by snprintf with the
conversion @%06.2f: the exact binary value of the double quotient,
rounded to two decimal places to nearest with ties to even, which is
what a correctly rounding printf produces. -/
def beats_hundredths (t : Nat) : Nat :=
  roundHalfEvenDiv (100 * beats_mantissa (total_seconds_bmt t))
    (2 ^ beats_scale (total_seconds_bmt t))

/-- The decimal digit character for n % 10. -/
def natDigitChar (n : Nat) : Char := Char.ofNat (48 + n % 10)

/-- The string produced by snprintf(time_str, len, "@%06.2f", beats)
for a beats value below 1000: an at sign, the integer part zero-padded
to three digits, a dot, and the two decimal digits.  The argument is
the beats value in hundredths. -/
def swatch_format (b : Nat) : String :=
  String.mk ['@', natDigitChar (b / 10000), natDigitChar (b / 1000),
             natDigitChar (b / 100), '.', natDigitChar (b / 10), natDigitChar b]

/-- The full _get_swatch_time pipeline: timestamp to formatted string. -/
def get_swatch_time (t : Nat) : String := swatch_format (beats_hundredths t)

/-- Decidable check that a string has the shape of the Swatch output:
exactly seven characters, an at sign, three decimal digits, a dot and
two more decimal digits. -/
def isDigitCh (c : Char) : Bool := 48 ≤ c.toNat && c.toNat ≤ 57

/-- Boolean recogniser for the pattern at-sign, three digits, dot, two
digits (seven characters in total). -/
def swatch_pattern (s : String) : Bool :=
  match s.data with
  | [a0, a1, a2, a3, a4, a5, a6] =>
      a0 == '@' && isDigitCh a1 && isDigitCh a2 && isDigitCh a3 &&
      a4 == '.' && isDigitCh a5 && isDigitCh a6
  | _ => false

lemma isDigitCh_natDigitChar (n : Nat) : isDigitCh (natDigitChar n) = true := by
  have h : n % 10 < 10 := Nat.mod_lt _ (by norm_num)
  unfold natDigitChar isDigitCh
  interval_cases h : n % 10 <;> decide

lemma total_seconds_bmt_le (t : Nat) : total_seconds_bmt t ≤ 86399 := by
  unfold total_seconds_bmt hour_bmt gm_hour gm_min gm_sec
  dsimp only
  split <;> omega

lemma roundHalfEvenDiv_le_div_add_one (num den : Nat) :
    roundHalfEvenDiv num den ≤ num / den + 1 := by
  unfold roundHalfEvenDiv
  dsimp only
  split_ifs <;> omega

lemma roundHalfEvenDiv_le_bound (num den B : Nat) (_hden : 0 < den)
    (h : 2 * num < (2 * B + 1) * den) : roundHalfEvenDiv num den ≤ B := by
  unfold roundHalfEvenDiv
  dsimp only
  have hdm : den * (num / den) + num % den = num := Nat.div_add_mod num den
  split_ifs with hc
  · have hr : den ≤ 2 * (num % den) := by rcases hc with h1 | ⟨h1, _⟩ <;> omega
    have key : (2 * (num / den) + 1) * den ≤ 2 * num := by
      have e : (2 * (num / den) + 1) * den = 2 * (den * (num / den)) + den := by ring
      rw [e]; omega
    have lt2 : den * (2 * (num / den) + 1) < den * (2 * B + 1) := by
      calc den * (2 * (num / den) + 1) = (2 * (num / den) + 1) * den := by ring
      _ ≤ 2 * num := key
      _ < (2 * B + 1) * den := h
      _ = den * (2 * B + 1) := by ring
    have := Nat.lt_of_mul_lt_mul_left lt2
    omega
  · have key : (2 * (num / den)) * den ≤ 2 * num := by
      have e : (2 * (num / den)) * den = 2 * (den * (num / den)) := by ring
      rw [e]; omega
    have lt2 : den * (2 * (num / den)) < den * (2 * B + 1) := by
      calc den * (2 * (num / den)) = (2 * (num / den)) * den := by ring
      _ ≤ 2 * num := key
      _ < (2 * B + 1) * den := h
      _ = den * (2 * B + 1) := by ring
    have := Nat.lt_of_mul_lt_mul_left lt2
    omega

lemma scaleBitsAux_ge (k : Nat) : ∀ (fuel N D : Nat), k ≤ fuel →
    (∀ j, j < k → N * 2 ^ j / D < 2 ^ 52) → k ≤ scaleBitsAux fuel N D := by
  induction k with
  | zero => intro fuel N D _ _; exact Nat.zero_le _
  | succ k ih =>
      intro fuel N D hk h
      cases fuel with
      | zero => omega
      | succ fuel =>
          unfold scaleBitsAux
          have h0 : N / D < 2 ^ 52 := by
            have := h 0 (Nat.succ_pos k)
            simpa using this
          rw [if_neg (by omega)]
          have hrec : k ≤ scaleBitsAux fuel (N * 2) D := by
            apply ih fuel (N * 2) D (by omega)
            intro j hj
            have hj2 := h (j + 1) (by omega)
            have e : N * 2 * 2 ^ j = N * 2 ^ (j + 1) := by ring
            rw [e]
            exact hj2
          omega

lemma beats_scale_ge_8 (n : Nat) (hn : n ≤ 86399) : 8 ≤ beats_scale n := by
  unfold beats_scale
  apply scaleBitsAux_ge 8 128 (n * 2 ^ 45) M864 (by norm_num)
  intro j hj
  have h1 : n * 2 ^ 45 * 2 ^ j ≤ 86399 * 2 ^ 45 * 2 ^ 7 := by
    have ha : n * 2 ^ 45 ≤ 86399 * 2 ^ 45 := Nat.mul_le_mul_right _ hn
    have hb : (2 : Nat) ^ j ≤ 2 ^ 7 := Nat.pow_le_pow_right (by norm_num) (by omega)
    exact Nat.mul_le_mul ha hb
  have hpos : 0 < M864 := by norm_num [M864]
  rw [Nat.div_lt_iff_lt_mul hpos]
  calc n * 2 ^ 45 * 2 ^ j ≤ 86399 * 2 ^ 45 * 2 ^ 7 := h1
  _ < 2 ^ 52 * M864 := by norm_num [M864]

lemma beats_key (n : Nat) (hn : n ≤ 86399) :
    2 * (100 * beats_mantissa n) < (2 * 99999 + 1) * 2 ^ beats_scale n := by
  have hs8 := beats_scale_ge_8 n hn
  have hP : (256 : Nat) ≤ 2 ^ beats_scale n := by
    calc (256 : Nat) = 2 ^ 8 := by norm_num
    _ ≤ 2 ^ beats_scale n := Nat.pow_le_pow_right (by norm_num) hs8
  have hm1 : beats_mantissa n ≤ n * 2 ^ 45 * 2 ^ beats_scale n / M864 + 1 := by
    unfold beats_mantissa
    exact roundHalfEvenDiv_le_div_add_one _ _
  have hm0 : n * 2 ^ 45 * 2 ^ beats_scale n / M864 * M864 ≤
      n * 2 ^ 45 * 2 ^ beats_scale n := Nat.div_mul_le_self _ _
  have hX : n * 2 ^ 45 * 2 ^ beats_scale n ≤ 3039894564102995968 * 2 ^ beats_scale n := by
    apply Nat.mul_le_mul_right
    calc n * 2 ^ 45 ≤ 86399 * 2 ^ 45 := Nat.mul_le_mul_right _ hn
    _ = 3039894564102995968 := by norm_num
  have hM : M864 = 3039929748475085 := rfl
  rw [hM] at hm0 hm1
  omega

lemma beats_hundredths_le (t : Nat) : beats_hundredths t ≤ 99999 := by
  have h := beats_key (total_seconds_bmt t) (total_seconds_bmt_le t)
  unfold beats_hundredths
  exact roundHalfEvenDiv_le_bound _ _ _ (pow_pos (by norm_num) _) h

lemma beats_fp_lt (t : Nat) : beats_fp t < 1000 := by
  have h := beats_key (total_seconds_bmt t) (total_seconds_bmt_le t)
  unfold beats_fp
  rw [div_lt_iff₀ (by positivity)]
  have hnat : beats_mantissa (total_seconds_bmt t) <
      1000 * 2 ^ beats_scale (total_seconds_bmt t) := by omega
  exact_mod_cast hnat

/-! ## Exact embedding of the C casts (int)(w * 0.3) and (int)(w * 0.7)

The doubles nearest 0.3 and 0.7 are M03 / 2^54 and M07 / 2^53.  The C
expression multiplies the (nonnegative) int w by the constant in double
precision, which rounds the exact product to the nearest double with
ties to even, and the int cast then truncates.  The functions below
perform exactly that computation on integer mantissas. -/

/-- Mantissa of the IEEE-754 double nearest 0.3 (the double is M03 / 2^54). -/
def M03 : Nat := 5404319552844595

/-- Mantissa of the IEEE-754 double nearest 0.7 (the double is M07 / 2^53). -/
def M07 : Nat := 6305039478318694

/-- Number of halvings needed to bring n below 2^53 (with a fuel bound
far above any value the program can produce). -/
def excessBitsAux : Nat → Nat → Nat
  | 0, _ => 0
  | fuel + 1, n => if n < 9007199254740992 then 0 else excessBitsAux fuel (n / 2) + 1

/-- Number of mantissa bits of n beyond the 53 a double can hold. -/
def excessBits (n : Nat) : Nat := excessBitsAux 128 n

/-- Truncation toward zero of the correctly rounded double product
w * (M / 2^e): round the exact product to 53 significant bits with
ties to even, then take the floor. -/
def floorDoubleMul (w M e : Nat) : Nat :=
  let n := w * M
  let k := excessBits n
  let m0 := n / 2 ^ k
  let r := n % 2 ^ k
  let m := if 2 * r > 2 ^ k ∨ (2 * r = 2 ^ k ∧ m0 % 2 = 1) then m0 + 1 else m0
  m * 2 ^ k / 2 ^ e

/-- The C expression (int)(w * 0.3) for a nonnegative int w. -/
def c_trunc03 (w : Nat) : Nat := floorDoubleMul w M03 54

/-- The C expression (int)(w * 0.7) for a nonnegative int w. -/
def c_trunc07 (w : Nat) : Nat := floorDoubleMul w M07 53

/-- The lower clamp bound min_x (or min_y) computed identically in
_clamp_window_position and in _mouse_move_cb: the screen origin minus
the C int cast of thirty percent of the window size. -/
def clamp_lo (origin : Int) (size : Nat) : Int := origin - (c_trunc03 size : Int)

/-- The upper clamp bound max_x (or max_y) computed identically in
_clamp_window_position and in _mouse_move_cb: the screen origin plus
the screen size minus the C int cast of seventy percent of the window
size. -/
def clamp_hi (origin : Int) (screen_size size : Nat) : Int :=
  origin + (screen_size : Int) - (c_trunc07 size : Int)

/-- The lower bound as the specification words it, in exact rational
arithmetic: screen origin minus three tenths of the window size.
Stated for comparison with the bound the code computes. -/
def spec_clamp_lo_q (origin : Int) (size : Nat) : ℚ :=
  (origin : ℚ) - 3 / 10 * (size : ℚ)

/-- The upper bound as the specification words it, in exact rational
arithmetic: screen origin plus screen size minus seven tenths of the
window size.  Stated for comparison with the bound the code
computes. -/
def spec_clamp_hi_q (origin : Int) (screen_size size : Nat) : ℚ :=
  (origin : ℚ) + (screen_size : ℚ) - 7 / 10 * (size : ℚ)

/-! ## Persistent configuration record (struct Config) -/

/-- The Config struct serialized through eet: date visibility, clock
mode and the stored window position. -/
structure Config where
  show_date : Bool
  clock_mode : Int
  win_x : Int
  win_y : Int
  deriving DecidableEq, Repr

/-! ## Timers

The program arms three kinds of ecore timers: a one-second repeating
timer driving _timer_cb, a one-shot timer of _get_next_timer_interval
seconds driving _minute_timer_cb to align with the next minute, and the
sixty-second repeating timer that _minute_timer_cb installs. -/

/-- The timer currently armed, identified by callback and interval. -/
inductive TimerSpec where
  | everySecond : TimerSpec
  | alignThenMinutes : ℚ → TimerSpec
  | everyMinute : TimerSpec
  deriving DecidableEq, Repr

/-- TIMER_INTERVAL_SECONDS from main.c. -/
def TIMER_INTERVAL_SECONDS : ℚ := 1

/-- TIMER_INTERVAL_MINUTES from main.c. -/
def TIMER_INTERVAL_MINUTES : ℚ := 60

/-- The body of _get_next_timer_interval: one second when seconds are
shown, otherwise the seconds remaining until the next minute boundary
computed from the tm_sec field of the current time. -/
def get_next_timer_interval (show_seconds : Bool) (tm_sec : Nat) : ℚ :=
  if show_seconds then TIMER_INTERVAL_SECONDS else (60 : ℚ) - (tm_sec : ℚ)

/-- The timer selection performed identically in _clock_mode_toggle_cb
and in elm_main: Swatch mode rearms every second; otherwise seconds
display rearms every second, and without seconds a one-shot aligning
timer of get_next_timer_interval seconds is armed. -/
def timer_setup (clock_mode : Int) (show_seconds : Bool) (tm_sec : Nat) : TimerSpec :=
  if clock_mode = CLOCK_MODE_SWATCH then .everySecond
  else if show_seconds then .everySecond
  else .alignThenMinutes (get_next_timer_interval false tm_sec)

/-- The first interval after which the armed timer fires. -/
def timer_first_interval : TimerSpec → ℚ
  | .everySecond => TIMER_INTERVAL_SECONDS
  | .alignThenMinutes q => q
  | .everyMinute => TIMER_INTERVAL_MINUTES

/-! ## Application state (struct App_Data plus its environment)

The structure mirrors App_Data.  The external world the callbacks
interact with is carried in the same record: store is the content of
the eet settings file (none when absent or unreadable), saves counts
completed eet writes, win_pos is the actual window position on
screen, win_w, win_h the window size and screen_geo the screen
geometry reported by elm_win_screen_size_get. -/

structure App_Data where
  timer : Option TimerSpec
  config : Option Config
  config_file : Bool
  show_seconds : Bool
  show_date : Bool
  clock_mode : Int
  win_x : Int
  win_y : Int
  dragging : Bool
  drag_start_x : Int
  drag_start_y : Int
  win_start_x : Int
  win_start_y : Int
  click_suppress : Bool
  mouse_down_x : Int
  mouse_down_y : Int
  store : Option Config
  saves : Nat
  win_pos_x : Int
  win_pos_y : Int
  win_w : Nat
  win_h : Nat
  screen_x : Int
  screen_y : Int
  screen_w : Nat
  screen_h : Nat
  deriving DecidableEq, Repr

/-- The App_Data produced by calloc in elm_main, before argument
parsing: every field zero, false or null.  The settings file content
found on disk is the parameter. -/
def calloc_app_data (store : Option Config) : App_Data :=
  { timer := none, config := none, config_file := false,
    show_seconds := false, show_date := false, clock_mode := 0,
    win_x := 0, win_y := 0, dragging := false,
    drag_start_x := 0, drag_start_y := 0, win_start_x := 0, win_start_y := 0,
    click_suppress := false, mouse_down_x := 0, mouse_down_y := 0,
    store := store, saves := 0, win_pos_x := 0, win_pos_y := 0,
    win_w := 0, win_h := 0, screen_x := 0, screen_y := 0,
    screen_w := 0, screen_h := 0 }

/-! ## Configuration load, save, init, shutdown -/

/-- _config_load: open the eet file and read the record named config.
A missing or unreadable file yields a null pointer, modelled by none;
otherwise the stored record is returned.  The loaded record does not
touch the App_Data fields. -/
def config_load (ad : App_Data) : Option Config := ad.store

/-- _config_save: return immediately when ad.config is null; otherwise
copy the current App_Data fields show_date, clock_mode, win_x, win_y
into the config record and write that record to the eet file. -/
def config_save (ad : App_Data) : App_Data :=
  match ad.config with
  | none => ad
  | some _ =>
      let rec_ : Config :=
        { show_date := ad.show_date, clock_mode := ad.clock_mode,
          win_x := ad.win_x, win_y := ad.win_y }
      { ad with config := some rec_, store := some rec_, saves := ad.saves + 1 }

/-- Copy the config record fields into the App_Data working fields, as
done at the end of _config_init.  The source dereferences ad->config
unconditionally; at that point the pointer is always non-null, so the
none branch is unreachable and left as the identity. -/
def copy_config_to_app (ad : App_Data) : App_Data :=
  match ad.config with
  | some c =>
      { ad with show_date := c.show_date, clock_mode := c.clock_mode,
                win_x := c.win_x, win_y := c.win_y }
  | none => ad

/-- _config_init: build the config path, load the stored record; when
nothing was loaded, allocate a record, set the intended defaults
(show_date true, clock_mode local, position (0,0)) and call
_config_save, which overwrites the record from the still-current
App_Data fields before writing; finally copy the record into the
App_Data working fields. -/
def config_init (ad0 : App_Data) : App_Data :=
  let ad1 := { ad0 with config_file := true }
  let ad2 :=
    match config_load ad1 with
    | some c => { ad1 with config := some c }
    | none =>
        let defaults : Config :=
          { show_date := true, clock_mode := CLOCK_MODE_LOCAL,
            win_x := 0, win_y := 0 }
        config_save { ad1 with config := some defaults }
  copy_config_to_app ad2

/-- _config_shutdown: when the config record is present, save it, free
it and null the pointer; when the path string is present, free it and
null it. -/
def config_shutdown (ad : App_Data) : App_Data :=
  let ad1 :=
    if ad.config.isSome then
      let saved := config_save ad
      { saved with config := none }
    else ad
  if ad1.config_file then { ad1 with config_file := false } else ad1

/-! ## Click-triggered signal callbacks -/

/-- _date_click_cb: return at once when click_suppress is set;
otherwise flip show_date, emit the visibility signal (presentation
side, no App_Data field), save the configuration and rerender. -/
def date_click_cb (ad : App_Data) : App_Data :=
  if ad.click_suppress then ad
  else config_save { ad with show_date := !ad.show_date }

/-- _utc_indicator_click_cb: return at once when click_suppress is
set; otherwise possibly spawn the web launcher (the Boolean result
records whether it was spawned) and rerender.  No App_Data field
changes. -/
def utc_indicator_click_cb (ad : App_Data) : App_Data × Bool :=
  if ad.click_suppress then (ad, false)
  else (ad, ad.clock_mode = CLOCK_MODE_SWATCH)

/-- The mode stepping performed by _clock_mode_toggle_cb: increment and
wrap to local past CLOCK_MODE_SWATCH. -/
def toggle_mode (m : Int) : Int :=
  if m + 1 > CLOCK_MODE_SWATCH then CLOCK_MODE_LOCAL else m + 1

/-- _clock_mode_toggle_cb: return at once when click_suppress is set;
otherwise advance the clock mode, save the configuration, delete the
running timer and arm the one appropriate for the new mode, then
rerender.  tm_sec is the seconds field of the current local time. -/
def clock_mode_toggle_cb (ad : App_Data) (tm_sec : Nat) : App_Data :=
  if ad.click_suppress then ad
  else
    let ad1 := config_save { ad with clock_mode := toggle_mode ad.clock_mode }
    let ad2 := { ad1 with timer := none }
    { ad2 with timer := some (timer_setup ad2.clock_mode ad2.show_seconds tm_sec) }

/-! ## Mouse callbacks (drag versus click disambiguation) -/

/-- An EVAS_CALLBACK_MOUSE_DOWN event: the pressed button, the canvas
coordinates of the press, and the root-window pointer position that
ecore_x_pointer_xy_get reports at that moment. -/
structure Mouse_Down_Ev where
  button : Int
  canvas_x : Int
  canvas_y : Int
  root_x : Int
  root_y : Int
  deriving DecidableEq, Repr

/-- An EVAS_CALLBACK_MOUSE_MOVE event: the buttons mask, the current
canvas coordinates, and the root-window pointer position. -/
structure Mouse_Move_Ev where
  buttons : Int
  canvas_x : Int
  canvas_y : Int
  root_x : Int
  root_y : Int
  deriving DecidableEq, Repr

/-- An EVAS_CALLBACK_MOUSE_UP event: the released button. -/
structure Mouse_Up_Ev where
  button : Int
  deriving DecidableEq, Repr

/-- _mouse_down_cb: ignore buttons other than the primary one; record
the press position, clear the suppression and dragging flags, save the
window origin and the root pointer position for a potential drag. -/
def mouse_down_cb (ad : App_Data) (ev : Mouse_Down_Ev) : App_Data :=
  if ev.button ≠ 1 then ad
  else
    { ad with mouse_down_x := ev.canvas_x, mouse_down_y := ev.canvas_y,
              click_suppress := false, dragging := false,
              win_start_x := ad.win_pos_x, win_start_y := ad.win_pos_y,
              drag_start_x := ev.root_x, drag_start_y := ev.root_y }

/-- _mouse_up_cb: ignore buttons other than the primary one; when a
drag was in progress, release the pointer grab and clear the dragging
flag while click_suppress stays set; otherwise clear click_suppress. -/
def mouse_up_cb (ad : App_Data) (ev : Mouse_Up_Ev) : App_Data :=
  if ev.button ≠ 1 then ad
  else if ad.dragging then { ad with dragging := false }
  else { ad with click_suppress := false }

/-- The squared displacement of a move event from the recorded press
position, as computed in _mouse_move_cb. -/
def move_dist_sq (ad : App_Data) (ev : Mouse_Move_Ev) : Int :=
  let dx := ev.canvas_x - ad.mouse_down_x
  let dy := ev.canvas_y - ad.mouse_down_y
  dx * dx + dy * dy

/-- drag_threshold from _mouse_move_cb, in pixels. -/
def drag_threshold : Int := 5

/-- _mouse_move_cb: ignore moves whose buttons mask is not the primary
button alone.  When not yet dragging, a squared displacement at most
the squared threshold returns without any change; beyond it the
dragging and click_suppress flags are set and the pointer is grabbed.
Once dragging, the window is moved to the origin saved at press time
plus the root pointer delta, clamped so that at most thirty percent of
the window may leave each screen edge (the C int casts of the 0.3 and
0.7 products are embedded exactly by c_trunc03 and c_trunc07). -/
def mouse_move_cb (ad : App_Data) (ev : Mouse_Move_Ev) : App_Data :=
  if ev.buttons ≠ 1 then ad
  else if ¬ad.dragging ∧ move_dist_sq ad ev ≤ drag_threshold * drag_threshold then ad
  else
    let ad1 :=
      if ad.dragging then ad
      else { ad with dragging := true, click_suppress := true }
    let new_x := ad1.win_start_x + (ev.root_x - ad1.drag_start_x)
    let new_y := ad1.win_start_y + (ev.root_y - ad1.drag_start_y)
    let min_x := clamp_lo ad1.screen_x ad1.win_w
    let max_x := clamp_hi ad1.screen_x ad1.screen_w ad1.win_w
    let new_x := if new_x < min_x then min_x else new_x
    let new_x := if new_x > max_x then max_x else new_x
    let min_y := clamp_lo ad1.screen_y ad1.win_h
    let max_y := clamp_hi ad1.screen_y ad1.screen_h ad1.win_h
    let new_y := if new_y < min_y then min_y else new_y
    let new_y := if new_y > max_y then max_y else new_y
    { ad1 with win_pos_x := new_x, win_pos_y := new_y }

/-- Fold a list of move events through _mouse_move_cb. -/
def run_moves (ad : App_Data) (evs : List Mouse_Move_Ev) : App_Data :=
  evs.foldl mouse_move_cb ad

/-! ## Startup position clamp (_clamp_window_position) -/

/-- The result of _clamp_window_position on one axis, mirroring the two
sequential branches of the source together with the flag they set. -/
def clamp_axis (v lo hi : Int) : Int × Bool :=
  let p1 := if v < lo then (lo, true) else (v, false)
  if p1.1 > hi then (hi, true) else p1

/-- _clamp_window_position: clamp the loaded window position so that at
most thirty percent of the window is outside each screen edge, the
bounds using the exact C int casts of the 0.3 and 0.7 double products;
record whether any branch adjusted a coordinate and, when one did, save
the configuration. -/
def clamp_window_position (ad : App_Data) (win_w win_h : Nat)
    (screen_x screen_y : Int) (screen_w screen_h : Nat) : App_Data :=
  let px := clamp_axis ad.win_x (clamp_lo screen_x win_w) (clamp_hi screen_x screen_w win_w)
  let py := clamp_axis ad.win_y (clamp_lo screen_y win_h) (clamp_hi screen_y screen_h win_h)
  let ad1 := { ad with win_x := px.1, win_y := py.1 }
  if px.2 || py.2 then config_save ad1 else ad1

/-! ## Display rendering (_timer_cb)

The struct tm values that localtime_r and gmtime_r produce are inputs
of the rendering: the timezone database is outside the program.  The
strftime conversions the program uses (%H:%M, %H:%M:%S and
"%A, %B %d, %Y") are embedded concretely. -/

/-- The fields of struct tm consumed by _timer_cb. -/
structure Tm where
  tm_sec : Nat
  tm_min : Nat
  tm_hour : Nat
  tm_mday : Nat
  tm_mon : Nat
  tm_year : Nat
  tm_wday : Nat
  deriving DecidableEq, Repr

/-- Two zero-padded decimal digits, as the strftime conversions %H, %M,
%S and %d produce for their in-range field values. -/
def pad2 (n : Nat) : String := String.mk [natDigitChar (n / 10), natDigitChar n]

/-- The full weekday name of the strftime conversion %A (tm_wday
counts from Sunday). -/
def weekdayName : Nat → String
  | 0 => "Sunday"
  | 1 => "Monday"
  | 2 => "Tuesday"
  | 3 => "Wednesday"
  | 4 => "Thursday"
  | 5 => "Friday"
  | 6 => "Saturday"
  | _ => ""

/-- The full month name of the strftime conversion %B (tm_mon counts
from zero). -/
def monthName : Nat → String
  | 0 => "January"
  | 1 => "February"
  | 2 => "March"
  | 3 => "April"
  | 4 => "May"
  | 5 => "June"
  | 6 => "July"
  | 7 => "August"
  | 8 => "September"
  | 9 => "October"
  | 10 => "November"
  | 11 => "December"
  | _ => ""

/-- strftime with the format "%H:%M:%S" or "%H:%M" as selected by the
show_seconds ternary in _timer_cb. -/
def strftime_time (show_seconds : Bool) (t : Tm) : String :=
  if show_seconds then
    pad2 t.tm_hour ++ ":" ++ pad2 t.tm_min ++ ":" ++ pad2 t.tm_sec
  else
    pad2 t.tm_hour ++ ":" ++ pad2 t.tm_min

/-- strftime with the format "%A, %B %d, %Y" used for the date line
(the year printed by %Y is tm_year plus 1900). -/
def strftime_date (t : Tm) : String :=
  weekdayName t.tm_wday ++ ", " ++ monthName t.tm_mon ++ " " ++
    pad2 t.tm_mday ++ ", " ++ toString (t.tm_year + 1900)

/-- The three text parts a _timer_cb invocation pushes to the layout:
time_text, date_text and utc_indicator_text, as functions of the clock
mode, the seconds preference, the local and UTC struct tm for the
current instant and the raw timestamp.  The switch falls back to the
local rendering for any mode value outside the three enumerated
ones. -/
def timer_cb_render (clock_mode : Int) (show_seconds : Bool)
    (tm_local tm_utc : Tm) (rawtime : Nat) : String × String × String :=
  if clock_mode = CLOCK_MODE_LOCAL then
    (strftime_time show_seconds tm_local, strftime_date tm_local, "")
  else if clock_mode = CLOCK_MODE_UTC then
    (strftime_time show_seconds tm_utc, strftime_date tm_utc, "UTC")
  else if clock_mode = CLOCK_MODE_SWATCH then
    (get_swatch_time rawtime, strftime_date tm_local, "Internet Time")
  else
    (strftime_time show_seconds tm_local, strftime_date tm_local, "")

/-! ## Sample states used to instantiate theorems with hypotheses -/

/-- An application state whose gesture has been classified as a drag,
used to instantiate the suppression theorem. -/
def suppressed_app : App_Data :=
  { calloc_app_data none with click_suppress := true }

/-- A struct tm used to instantiate rendering theorems: Monday,
January 1, 2024, 00:00:00. -/
def tm_sample : Tm :=
  { tm_sec := 0, tm_min := 0, tm_hour := 0, tm_mday := 1, tm_mon := 0,
    tm_year := 124, tm_wday := 1 }

/-- A post-initialization state whose stored x position 200 lies past
the right edge of a 100 wide screen, with a 5 wide window. -/
def c5_app_a : App_Data :=
  { calloc_app_data none with
      config := some { show_date := true, clock_mode := 0, win_x := 200, win_y := 0 },
      config_file := true, show_date := true, win_x := 200, win_y := 0 }

/-- A post-initialization state on a degenerate 10 by 10 screen with a
100 by 100 window, whose stored position (-60, -60) happens to equal
the upper clamp bound while lying below the lower one. -/
def c5_app_b : App_Data :=
  { calloc_app_data none with
      config := some { show_date := true, clock_mode := 0, win_x := -60, win_y := -60 },
      config_file := true, show_date := true, win_x := -60, win_y := -60 }

/-- A post-initialization state with stored x position -50, half a
100 wide window to the left of a 1000 wide screen. -/
def c5_app_c : App_Data :=
  { calloc_app_data none with
      config := some { show_date := true, clock_mode := 0, win_x := -50, win_y := 0 },
      config_file := true, show_date := true, win_x := -50, win_y := 0 }

/-- A post-initialization state with stored x position 1050, half a
100 wide window past the right edge of a 1000 wide screen. -/
def c5_app_d : App_Data :=
  { calloc_app_data none with
      config := some { show_date := true, clock_mode := 0, win_x := 1050, win_y := 0 },
      config_file := true, show_date := true, win_x := 1050, win_y := 0 }

/-! ## Theorems -/

lemma gm_hour_le (t : Nat) : gm_hour t ≤ 23 := by
  unfold gm_hour; omega

lemma swatch_pattern_format (b : Nat) : swatch_pattern (swatch_format b) = true := by
  unfold swatch_format swatch_pattern
  simp [isDigitCh_natDigitChar]

set_option maxRecDepth 4096 in
/-- C1: for every timestamp, the Swatch rendering computes the BMT hour
as the UTC hour plus one with wraparound at 24; both the exact quotient
of total BMT seconds by 86.4 and the double the program actually
computes for it lie in the interval from 0 inclusive to 1000 exclusive;
the hundredths that snprintf prints stay below 100000, so the output is
an at sign followed by exactly three digits, a dot and two digits; at
UTC time 23:00:00 the BMT hour wraps to 0 and the output is the string
at-zero-zero-zero-dot-zero-zero. -/
theorem C1_swatch_internet_time (t : Nat) :
    hour_bmt t = (gm_hour t + 1) % 24 ∧
    0 ≤ beats t ∧ beats t < 1000 ∧
    0 ≤ beats_fp t ∧ beats_fp t < 1000 ∧
    beats_hundredths t ≤ 99999 ∧
    swatch_pattern (get_swatch_time t) = true ∧
    (gm_hour t = 23 → gm_min t = 0 → gm_sec t = 0 →
      hour_bmt t = 0 ∧ get_swatch_time t = "@000.00") := by
  refine ⟨?_, ?_, ?_, ?_, ?_, ?_, ?_, ?_⟩
  · have hh := gm_hour_le t
    unfold hour_bmt
    dsimp only
    split <;> omega
  · unfold beats; positivity
  · unfold beats
    rw [div_lt_iff₀ (by norm_num : (0:ℚ) < 864 / 10)]
    have h := total_seconds_bmt_le t
    have h2 : (total_seconds_bmt t : ℚ) ≤ 86399 := by exact_mod_cast h
    linarith
  · unfold beats_fp; positivity
  · exact beats_fp_lt t
  · exact beats_hundredths_le t
  · exact swatch_pattern_format (beats_hundredths t)
  · intro h23 hm hs
    have hb : hour_bmt t = 0 := by
      unfold hour_bmt; rw [h23]; norm_num
    have htot : total_seconds_bmt t = 0 := by
      unfold total_seconds_bmt; rw [hb, hm, hs]
    have hbh : beats_hundredths t = 0 := by
      unfold beats_hundredths
      rw [htot]
      decide
    refine ⟨hb, ?_⟩
    unfold get_swatch_time
    rw [hbh]
    rfl

/-- C1 witness: the timestamp 82800 is 23:00:00 UTC; the theorem
applied there yields the wrapped hour 0 and the all-zero output. -/
theorem C1_swatch_internet_time_witness :
    hour_bmt 82800 = 0 ∧ get_swatch_time 82800 = "@000.00" :=
  (C1_swatch_internet_time 82800).2.2.2.2.2.2.2 (by decide) (by decide) (by decide)

/-- C3: toggle_mode is a total cyclic function on the three modes,
sending local to UTC, UTC to Swatch and Swatch back to local, and three
applications return every mode, in particular local, to itself. -/
theorem C3_toggle_mode_cyclic :
    toggle_mode CLOCK_MODE_LOCAL = CLOCK_MODE_UTC ∧
    toggle_mode CLOCK_MODE_UTC = CLOCK_MODE_SWATCH ∧
    toggle_mode CLOCK_MODE_SWATCH = CLOCK_MODE_LOCAL ∧
    toggle_mode (toggle_mode (toggle_mode CLOCK_MODE_LOCAL)) = CLOCK_MODE_LOCAL ∧
    toggle_mode (toggle_mode (toggle_mode CLOCK_MODE_UTC)) = CLOCK_MODE_UTC ∧
    toggle_mode (toggle_mode (toggle_mode CLOCK_MODE_SWATCH)) = CLOCK_MODE_SWATCH := by
  decide

/-- C4: the first timer interval armed for a mode and seconds setting
is one second when seconds are shown or the mode is Swatch, and
otherwise the seconds remaining to the next minute boundary; at a
local-mode timestamp with seconds 15 it is 45 and with seconds 0 it
is 60. -/
theorem C4_next_tick_interval (mode : Int) (show_seconds : Bool) (tm_sec : Nat) :
    timer_first_interval (timer_setup mode show_seconds tm_sec) =
      (if show_seconds = true ∨ mode = CLOCK_MODE_SWATCH then 1
       else (60 : ℚ) - (tm_sec : ℚ)) ∧
    timer_first_interval (timer_setup CLOCK_MODE_LOCAL false 15) = 45 ∧
    timer_first_interval (timer_setup CLOCK_MODE_LOCAL false 0) = 60 := by
  refine ⟨?_, by norm_num [timer_setup, timer_first_interval, get_next_timer_interval,
    TIMER_INTERVAL_SECONDS, CLOCK_MODE_LOCAL, CLOCK_MODE_SWATCH],
    by norm_num [timer_setup, timer_first_interval, get_next_timer_interval,
    TIMER_INTERVAL_SECONDS, CLOCK_MODE_LOCAL, CLOCK_MODE_SWATCH]⟩
  unfold timer_setup timer_first_interval get_next_timer_interval TIMER_INTERVAL_SECONDS
  by_cases hm : mode = CLOCK_MODE_SWATCH <;> by_cases hs : show_seconds = true <;>
    simp [hm, hs]

/-- C6: every click-triggered action handler checks click_suppress
first and, when it is set, returns with the application state
untouched: show_date, clock_mode, the persisted configuration and the
timer are all unchanged, and the indicator click spawns nothing. -/
theorem C6_click_handlers_suppressed (ad : App_Data) (tm_sec : Nat)
    (h : ad.click_suppress = true) :
    date_click_cb ad = ad ∧
    clock_mode_toggle_cb ad tm_sec = ad ∧
    utc_indicator_click_cb ad = (ad, false) := by
  unfold date_click_cb clock_mode_toggle_cb utc_indicator_click_cb
  simp [h]

/-- C6 witness: the three handlers leave a concrete suppressed state
untouched. -/
theorem C6_click_handlers_suppressed_witness :
    date_click_cb suppressed_app = suppressed_app ∧
    clock_mode_toggle_cb suppressed_app 15 = suppressed_app ∧
    utc_indicator_click_cb suppressed_app = (suppressed_app, false) :=
  C6_click_handlers_suppressed suppressed_app 15 rfl

/-- C8: for any mode value outside the three enumerated ones, the
rendered time text, date text and mode indicator are identical to the
local-mode rendering, for every timestamp and seconds preference, and
the indicator is the empty string. -/
theorem C8_unknown_mode_local_fallback (m : Int) (ss : Bool) (tl tu : Tm) (t : Nat)
    (h0 : m ≠ CLOCK_MODE_LOCAL) (h1 : m ≠ CLOCK_MODE_UTC) (h2 : m ≠ CLOCK_MODE_SWATCH) :
    timer_cb_render m ss tl tu t = timer_cb_render CLOCK_MODE_LOCAL ss tl tu t ∧
    (timer_cb_render m ss tl tu t).2.2 = "" := by
  unfold timer_cb_render
  simp [h0, h1, h2]

/-- C8 witness: the out-of-range mode 3 renders exactly as local mode
at a concrete time. -/
theorem C8_unknown_mode_local_fallback_witness :
    timer_cb_render 3 false tm_sample tm_sample 0 =
      timer_cb_render CLOCK_MODE_LOCAL false tm_sample tm_sample 0 ∧
    (timer_cb_render 3 false tm_sample tm_sample 0).2.2 = "" :=
  C8_unknown_mode_local_fallback 3 false tm_sample tm_sample 0
    (by decide) (by decide) (by decide)

/-- C9: a press or release of a button other than the primary one, or
a move whose buttons mask is not the primary button alone, leaves the
whole application state, and with it the drag state and the window
position, unchanged. -/
theorem C9_non_primary_buttons_ignored (ad : App_Data)
    (d : Mouse_Down_Ev) (u : Mouse_Up_Ev) (mv : Mouse_Move_Ev)
    (hd : d.button ≠ 1) (hu : u.button ≠ 1) (hm : mv.buttons ≠ 1) :
    mouse_down_cb ad d = ad ∧ mouse_up_cb ad u = ad ∧ mouse_move_cb ad mv = ad := by
  unfold mouse_down_cb mouse_up_cb mouse_move_cb
  simp [hd, hu, hm]

/-- C9 witness: button-2 events leave a concrete state unchanged. -/
theorem C9_non_primary_buttons_ignored_witness :
    mouse_down_cb (calloc_app_data none) ⟨2, 10, 10, 100, 100⟩ = calloc_app_data none ∧
    mouse_up_cb (calloc_app_data none) ⟨2⟩ = calloc_app_data none ∧
    mouse_move_cb (calloc_app_data none) ⟨2, 50, 50, 140, 140⟩ = calloc_app_data none :=
  C9_non_primary_buttons_ignored (calloc_app_data none) ⟨2, 10, 10, 100, 100⟩ ⟨2⟩
    ⟨2, 50, 50, 140, 140⟩ (by decide) (by decide) (by decide)

lemma config_shutdown_clean (ad : App_Data) :
    (config_shutdown ad).config = none ∧ (config_shutdown ad).config_file = false := by
  cases h : ad.config <;> simp [config_shutdown, config_save, h] <;> split <;> simp_all

lemma config_shutdown_of_clean (s : App_Data) (h1 : s.config = none)
    (h2 : s.config_file = false) : config_shutdown s = s := by
  simp [config_shutdown, config_save, h1, h2]

/-- C10: one configuration shutdown nulls the config record and the
path, and a second shutdown is the identity: it performs no further
save (the write counter is unchanged) and changes no state, so the
double invocation on the delete-request exit path acts as a single
shutdown. -/
theorem C10_config_shutdown_idempotent (ad : App_Data) :
    (config_shutdown ad).config = none ∧
    (config_shutdown ad).config_file = false ∧
    config_shutdown (config_shutdown ad) = config_shutdown ad ∧
    (config_shutdown (config_shutdown ad)).saves = (config_shutdown ad).saves := by
  have h := config_shutdown_clean ad
  have h2 := config_shutdown_of_clean (config_shutdown ad) h.1 h.2
  exact ⟨h.1, h.2, h2, by rw [h2]⟩

lemma mouse_move_cb_id_of_small (s : App_Data) (ev : Mouse_Move_Ev)
    (hd : s.dragging = false)
    (hsm : ev.buttons = 1 → move_dist_sq s ev ≤ drag_threshold * drag_threshold) :
    mouse_move_cb s ev = s := by
  unfold mouse_move_cb
  by_cases hb : ev.buttons = 1
  · simp [hb, hd, hsm hb]
  · simp [hb]

lemma mouse_move_cb_suppress_mono (s : App_Data) (ev : Mouse_Move_Ev)
    (h : s.click_suppress = true) :
    (mouse_move_cb s ev).click_suppress = true := by
  unfold mouse_move_cb
  split_ifs with h1 h2 h3 <;> simp_all

lemma mouse_move_cb_triggers (s : App_Data) (ev : Mouse_Move_Ev)
    (hd : s.dragging = false) (hb : ev.buttons = 1)
    (hgt : move_dist_sq s ev > drag_threshold * drag_threshold) :
    (mouse_move_cb s ev).dragging = true ∧
    (mouse_move_cb s ev).click_suppress = true := by
  unfold mouse_move_cb
  have hn : ¬ move_dist_sq s ev ≤ drag_threshold * drag_threshold := by omega
  simp [hb, hd, hn]

lemma run_moves_suppress_mono (evs : List Mouse_Move_Ev) (s : App_Data)
    (h : s.click_suppress = true) :
    (run_moves s evs).click_suppress = true := by
  induction evs generalizing s with
  | nil => exact h
  | cons ev tl ih => exact ih _ (mouse_move_cb_suppress_mono s ev h)

lemma run_moves_id (evs : List Mouse_Move_Ev) (s : App_Data)
    (hd : s.dragging = false)
    (hall : ∀ ev ∈ evs, ev.buttons = 1 →
      move_dist_sq s ev ≤ drag_threshold * drag_threshold) :
    run_moves s evs = s := by
  induction evs with
  | nil => rfl
  | cons ev tl ih =>
      have h1 : mouse_move_cb s ev = s :=
        mouse_move_cb_id_of_small s ev hd (hall ev (by simp))
      show run_moves (mouse_move_cb s ev) tl = s
      rw [h1]
      exact ih (fun e he hb => hall e (by simp [he]) hb)

/-- C2: after a primary-button press the gesture starts with
click_suppress cleared and the drag state idle; a held-button move
whose squared displacement from the press position exceeds the squared
threshold of five pixels switches an idle state to dragging and sets
click_suppress; once click_suppress is set, any sequence of further
moves leaves it set, even one returning to the press position; and a
gesture none of whose moves exceeds the threshold leaves the state,
click_suppress and the window position exactly as they were at the
press. -/
theorem C2_drag_gesture_state_machine (ad : App_Data) (dv : Mouse_Down_Ev)
    (hb : dv.button = 1) :
    (mouse_down_cb ad dv).click_suppress = false ∧
    (mouse_down_cb ad dv).dragging = false ∧
    (∀ (s : App_Data) (ev : Mouse_Move_Ev), s.dragging = false → ev.buttons = 1 →
      move_dist_sq s ev > drag_threshold * drag_threshold →
      (mouse_move_cb s ev).dragging = true ∧
      (mouse_move_cb s ev).click_suppress = true) ∧
    (∀ (s : App_Data) (evs : List Mouse_Move_Ev), s.click_suppress = true →
      (run_moves s evs).click_suppress = true) ∧
    (∀ evs : List Mouse_Move_Ev,
      (∀ ev ∈ evs, ev.buttons = 1 →
        move_dist_sq (mouse_down_cb ad dv) ev ≤ drag_threshold * drag_threshold) →
      run_moves (mouse_down_cb ad dv) evs = mouse_down_cb ad dv) := by
  have h1 : (mouse_down_cb ad dv).click_suppress = false := by
    simp [mouse_down_cb, hb]
  have h2 : (mouse_down_cb ad dv).dragging = false := by
    simp [mouse_down_cb, hb]
  exact ⟨h1, h2,
    fun s ev hd hb2 hgt => mouse_move_cb_triggers s ev hd hb2 hgt,
    fun s evs h => run_moves_suppress_mono evs s h,
    fun evs hall => run_moves_id evs _ h2 hall⟩

/-- C2 witness: for a concrete press at canvas (100, 100), the press
clears the flags; the move to (103, 105) with squared displacement 34
triggers dragging and suppression; and the two moves to (103, 104)
(squared displacement 25, exactly the threshold) and back to
(100, 100) leave the post-press state untouched. -/
theorem C2_drag_gesture_state_machine_witness :
    (mouse_down_cb (calloc_app_data none) ⟨1, 100, 100, 300, 300⟩).click_suppress = false ∧
    (mouse_move_cb (mouse_down_cb (calloc_app_data none) ⟨1, 100, 100, 300, 300⟩)
      ⟨1, 103, 105, 303, 305⟩).dragging = true ∧
    (mouse_move_cb (mouse_down_cb (calloc_app_data none) ⟨1, 100, 100, 300, 300⟩)
      ⟨1, 103, 105, 303, 305⟩).click_suppress = true ∧
    run_moves (mouse_down_cb (calloc_app_data none) ⟨1, 100, 100, 300, 300⟩)
      [⟨1, 103, 104, 303, 304⟩, ⟨1, 100, 100, 300, 300⟩] =
      mouse_down_cb (calloc_app_data none) ⟨1, 100, 100, 300, 300⟩ := by
  have T := C2_drag_gesture_state_machine (calloc_app_data none)
    ⟨1, 100, 100, 300, 300⟩ rfl
  refine ⟨T.1, ?_, ?_, ?_⟩
  · exact (T.2.2.1 _ ⟨1, 103, 105, 303, 305⟩ T.2.1 rfl (by decide)).1
  · exact (T.2.2.1 _ ⟨1, 103, 105, 303, 305⟩ T.2.1 rfl (by decide)).2
  · exact T.2.2.2.2 [⟨1, 103, 104, 303, 304⟩, ⟨1, 100, 100, 300, 300⟩] (by decide)

/-- C7: with the settings store absent or unreadable, _config_load
returns no record and _config_init takes the defaults path; the
clock_mode, win_x and win_y defaults and the immediate write back
match the specification, but the adopted and persisted show_date is
false rather than true: _config_save, called by _config_init right
after the defaults are placed in the record, overwrites the record
from the still-zeroed App_Data fields before writing.  This theorem
documents the divergence at the failing input. -/
theorem C7_config_init_defaults_divergence :
    config_load { calloc_app_data none with config_file := true } = none ∧
    (config_init (calloc_app_data none)).clock_mode = CLOCK_MODE_LOCAL ∧
    (config_init (calloc_app_data none)).win_x = 0 ∧
    (config_init (calloc_app_data none)).win_y = 0 ∧
    (config_init (calloc_app_data none)).saves = 1 ∧
    (config_init (calloc_app_data none)).show_date = false ∧
    (config_init (calloc_app_data none)).store =
      some { show_date := false, clock_mode := 0, win_x := 0, win_y := 0 } ∧
    (config_init (calloc_app_data none)).config =
      some { show_date := false, clock_mode := 0, win_x := 0, win_y := 0 } :=
  ⟨rfl, rfl, rfl, rfl, rfl, rfl, rfl, rfl⟩

lemma clamp_axis_spec (v lo hi : Int) (h : lo ≤ hi) :
    (clamp_axis v lo hi).1 = max lo (min hi v) ∧
    ((clamp_axis v lo hi).2 = true ↔ max lo (min hi v) ≠ v) := by
  unfold clamp_axis
  dsimp only
  split_ifs <;> simp <;> omega

/-- C5 counterexample: the startup clamp does not use the exact
rational bounds the claim states, and the persist-iff-changed clause
fails on degenerate geometry.  With a 5 wide window on a 100 wide
screen, a stored x of 200 is clamped to 97, which exceeds the claimed
upper bound of 96.5: the code bounds use the C int casts of the 0.3
and 0.7 double products.  And with a 100 by 100 window on a 10 by 10
screen and stored position (-60, -60), both clamp branches fire and a
save is performed although the final position equals the stored
one. -/
theorem C5_startup_clamp_counterexample :
    (clamp_window_position c5_app_a 5 10 0 0 100 100).win_x = 97 ∧
    ¬ ((97 : ℚ) ≤ spec_clamp_hi_q 0 100 5) ∧
    (clamp_window_position c5_app_b 100 100 0 0 10 10).win_x = c5_app_b.win_x ∧
    (clamp_window_position c5_app_b 100 100 0 0 10 10).win_y = c5_app_b.win_y ∧
    (clamp_window_position c5_app_b 100 100 0 0 10 10).saves = c5_app_b.saves + 1 := by
  refine ⟨rfl, ?_, rfl, rfl, rfl⟩
  norm_num [spec_clamp_hi_q]

/-- C5 amended: at startup each coordinate of the loaded position is
clamped to the interval from the screen origin minus the C int cast of
0.3 times the window size up to the screen origin plus the screen size
minus the C int cast of 0.7 times the window size (the same bounds as
live dragging), and, provided each lower bound does not exceed its
upper bound, the corrected value is persisted if and only if clamping
changed at least one coordinate, the persisted record carrying the
corrected position. -/
theorem C5_startup_clamp_amended (ad : App_Data) (win_w win_h : Nat)
    (sx sy : Int) (sw sh : Nat)
    (hx : clamp_lo sx win_w ≤ clamp_hi sx sw win_w)
    (hy : clamp_lo sy win_h ≤ clamp_hi sy sh win_h)
    (hc : ad.config.isSome = true) :
    (clamp_window_position ad win_w win_h sx sy sw sh).win_x
      = max (clamp_lo sx win_w) (min (clamp_hi sx sw win_w) ad.win_x) ∧
    (clamp_window_position ad win_w win_h sx sy sw sh).win_y
      = max (clamp_lo sy win_h) (min (clamp_hi sy sh win_h) ad.win_y) ∧
    ((clamp_window_position ad win_w win_h sx sy sw sh).saves = ad.saves + 1 ↔
      ((clamp_window_position ad win_w win_h sx sy sw sh).win_x ≠ ad.win_x ∨
       (clamp_window_position ad win_w win_h sx sy sw sh).win_y ≠ ad.win_y)) ∧
    (((clamp_window_position ad win_w win_h sx sy sw sh).win_x = ad.win_x ∧
      (clamp_window_position ad win_w win_h sx sy sw sh).win_y = ad.win_y) →
      clamp_window_position ad win_w win_h sx sy sw sh = ad) ∧
    (((clamp_window_position ad win_w win_h sx sy sw sh).win_x ≠ ad.win_x ∨
      (clamp_window_position ad win_w win_h sx sy sw sh).win_y ≠ ad.win_y) →
      (clamp_window_position ad win_w win_h sx sy sw sh).store =
        some { show_date := ad.show_date, clock_mode := ad.clock_mode,
               win_x := (clamp_window_position ad win_w win_h sx sy sw sh).win_x,
               win_y := (clamp_window_position ad win_w win_h sx sy sw sh).win_y }) := by
  obtain ⟨Hx1, Hx2⟩ := clamp_axis_spec ad.win_x (clamp_lo sx win_w) (clamp_hi sx sw win_w) hx
  obtain ⟨Hy1, Hy2⟩ := clamp_axis_spec ad.win_y (clamp_lo sy win_h) (clamp_hi sy sh win_h) hy
  obtain ⟨c, hcc⟩ := Option.isSome_iff_exists.mp hc
  unfold clamp_window_position
  dsimp only
  rcases hpx : clamp_axis ad.win_x (clamp_lo sx win_w) (clamp_hi sx sw win_w) with ⟨cx, bx⟩
  rcases hpy : clamp_axis ad.win_y (clamp_lo sy win_h) (clamp_hi sy sh win_h) with ⟨cy, bY⟩
  rw [hpx] at Hx1 Hx2
  rw [hpy] at Hy1 Hy2
  dsimp only at Hx1 Hx2 Hy1 Hy2
  dsimp only
  have hsne : ad.saves ≠ ad.saves + 1 := by omega
  cases bx <;> cases bY <;> simp at Hx2 Hy2 <;>
    simp only [Bool.or_false, Bool.false_or, Bool.or_true, Bool.true_or, Bool.or_self]
  · -- no branch fired on either axis: no save, state unchanged
    rw [if_neg (by simp)]
    have hxe : cx = ad.win_x := Hx1.trans Hx2
    have hye : cy = ad.win_y := Hy1.trans Hy2
    dsimp only
    refine ⟨Hx1, Hy1, ?_, ?_, ?_⟩
    · simp [hsne, hxe, hye]
    · intro _
      rw [hxe, hye]
    · rintro (h1 | h2)
      · exact absurd hxe h1
      · exact absurd hye h2
  · -- only the y branch fired
    simp only [if_true]
    simp only [config_save]
    rw [show ({ ad with win_x := cx, win_y := cy } : App_Data).config = some c from hcc]
    dsimp only
    refine ⟨Hx1, Hy1, ?_, ?_, ?_⟩
    · simp
      right
      exact Hy1 ▸ Hy2
    · rintro ⟨h1, h2⟩
      exact absurd (Hy1.symm.trans h2) Hy2
    · intro _
      rfl
  · -- only the x branch fired
    simp only [if_true]
    simp only [config_save]
    rw [show ({ ad with win_x := cx, win_y := cy } : App_Data).config = some c from hcc]
    dsimp only
    refine ⟨Hx1, Hy1, ?_, ?_, ?_⟩
    · simp
      left
      exact Hx1 ▸ Hx2
    · rintro ⟨h1, h2⟩
      exact absurd (Hx1.symm.trans h1) Hx2
    · intro _
      rfl
  · -- both branches fired
    simp only [if_true]
    simp only [config_save]
    rw [show ({ ad with win_x := cx, win_y := cy } : App_Data).config = some c from hcc]
    dsimp only
    refine ⟨Hx1, Hy1, ?_, ?_, ?_⟩
    · simp
      left
      exact Hx1 ▸ Hx2
    · rintro ⟨h1, h2⟩
      exact absurd (Hx1.symm.trans h1) Hx2
    · intro _
      rfl

/-- C5 amended witness: for a 100 wide window on a 1000 wide screen
the amended bounds give the values the specification expects for sizes
divisible by ten: a stored x of -50 is raised to -30 and a stored x of
1050 is lowered to 930, and the first correction is persisted. -/
theorem C5_startup_clamp_amended_witness :
    (clamp_window_position c5_app_c 100 100 0 0 1000 1000).win_x = -30 ∧
    (clamp_window_position c5_app_d 100 100 0 0 1000 1000).win_x = 930 ∧
    (clamp_window_position c5_app_c 100 100 0 0 1000 1000).saves = c5_app_c.saves + 1 := by
  have T := C5_startup_clamp_amended c5_app_c 100 100 0 0 1000 1000
    (by decide) (by decide) rfl
  have T2 := C5_startup_clamp_amended c5_app_d 100 100 0 0 1000 1000
    (by decide) (by decide) rfl
  refine ⟨?_, ?_, ?_⟩
  · rw [T.1]; decide
  · rw [T2.1]; decide
  · exact (T.2.2.1).mpr (Or.inl (by rw [T.1]; decide))

end EliveClock
